import Mathlib

/-!
Shallow embedding of the `author-inherent` pallet
(`pallets/author-inherent/src/lib.rs`).

The pallet keeps one storage cell `Author : Option<AuthorId>`, cleared by
the `on_initialize` hook, written by the mandatory `set_author` inherent
call, and read by `find_author`.  Side effects of a successful
`set_author` (a consensus digest deposit and an `EventHandler::note_author`
notification) are modelled as an ordered trace of events appended to the
state, so that their number and relative order are visible in proofs.
The `ProvideInherent` implementation (`is_inherent_required`,
`create_inherent`, `check_inherent`, `is_inherent`) is embedded over a
model of the `sp_inherents::InherentData` bag as an association list from
8-byte identifiers to raw byte payloads.
-/

namespace AuthorInherent

/-- Model of `ConsensusEngineId` (a 4-byte tag) as a list of byte values. -/
abbrev ConsensusEngineId : Type := List Nat

/-- Model of `sp_inherents::InherentIdentifier` (an 8-byte tag) as a list of
byte values. -/
abbrev InherentIdentifier : Type := List Nat

/-- `ENGINE_ID`: the fixed engine tag, ASCII bytes of `b"auth"`
(`pub const ENGINE_ID: ConsensusEngineId = [b'a', b'u', b't', b'h'];`). -/
def ENGINE_ID : ConsensusEngineId := [97, 117, 116, 104]

/-- `INHERENT_IDENTIFIER`: the fixed 8-byte tag, ASCII bytes of
`b"author__"` (`pub const INHERENT_IDENTIFIER: InherentIdentifier = *b"author__";`). -/
def INHERENT_IDENTIFIER : InherentIdentifier := [97, 117, 116, 104, 111, 114, 95, 95]

/-- The configuration trait `Config`: the final admission policy
`FullCanAuthor::can_author`, the preliminary admission policy
`PreliminaryCanAuthor::can_author`, and the SCALE codec of `AuthorId`
(`Encode`/`Decode`) abstracted as a pair of functions on byte lists.
The `EventHandler` is modelled by recording its invocations in the
state's event trace rather than as a function here. -/
structure Config (α : Type) where
  fullCanAuthor : α → Bool
  preliminaryCanAuthor : α → Bool
  encode : α → List Nat
  decode : List Nat → Option α

/-- Dispatch origins relevant to the pallet: `ensure_none` accepts only the
unauthenticated (none) origin and rejects signed and root origins. -/
inductive Origin : Type where
  | none : Origin
  | signed (who : Nat) : Origin
  | root : Origin
deriving DecidableEq, Repr

/-- Dispatch-level errors of `set_author`: `BadOrigin` from
`ensure_none`, and the two `decl_error!` variants `AuthorAlreadySet` and
`CannotBeAuthor`. -/
inductive DispatchError : Type where
  | badOrigin : DispatchError
  | authorAlreadySet : DispatchError
  | cannotBeAuthor : DispatchError
deriving DecidableEq, Repr

/-- One observable side effect of the pallet: a consensus digest item
deposited via `frame_system::Pallet::deposit_log(DigestItem::Consensus(..))`,
or an `EventHandler::note_author` notification. -/
inductive Event (α : Type) where
  | consensus (engine : ConsensusEngineId) (payload : List Nat) : Event α
  | noteAuthor (author : α) : Event α
deriving DecidableEq, Repr

/-- Pallet state: the `Author` storage cell together with the ordered trace
of side effects emitted so far in the round. -/
structure State (α : Type) where
  author : Option α
  events : List (Event α)
deriving DecidableEq, Repr

/-- `frame_system::ensure_none`: succeeds exactly on the unauthenticated
origin, otherwise fails with `BadOrigin`. -/
def ensure_none : Origin → Except DispatchError Unit
  | Origin.none => Except.ok ()
  | Origin.signed _ => Except.error DispatchError.badOrigin
  | Origin.root => Except.error DispatchError.badOrigin

/-- The dispatchable `set_author(origin, author)`:
`ensure_none(origin)?`, then `ensure!(Author::get().is_none(), AuthorAlreadySet)`,
then `ensure!(FullCanAuthor::can_author(&author), CannotBeAuthor)`;
on success `Author::put(&author)`, then
`deposit_log(DigestItem::Consensus(ENGINE_ID, author.encode()))`, then
`EventHandler::note_author(author)`. -/
def set_author {α : Type} (cfg : Config α) (origin : Origin) (author : α)
    (s : State α) : Except DispatchError (State α) :=
  match ensure_none origin with
  | Except.error e => Except.error e
  | Except.ok _ =>
    if (s.author).isSome then
      Except.error DispatchError.authorAlreadySet
    else if cfg.fullCanAuthor author then
      Except.ok
        { author := some author
          events := s.events ++
            [Event.consensus ENGINE_ID (cfg.encode author),
             Event.noteAuthor author] }
    else
      Except.error DispatchError.cannotBeAuthor

/-- Dispatch of `set_author` as a total state transformer: on success the
new state is kept, on failure the state is unchanged and the error is
reported (all checks in `set_author` precede all writes, so a failing call
performs no mutation). -/
def apply_set_author {α : Type} (cfg : Config α) (origin : Origin)
    (author : α) (s : State α) : State α × Option DispatchError :=
  match set_author cfg origin author s with
  | Except.ok s2 => (s2, Option.none)
  | Except.error e => (s, some e)

/-- The `on_initialize` hook: `Author::kill()` and weight `0`. -/
def on_initialize {α : Type} (s : State α) : State α × Nat :=
  ({ s with author := Option.none }, 0)

/-- `FindAuthor::find_author`: ignores the supplied digests entirely and
returns `Author::get()`. -/
def find_author {α : Type} (digests : List (ConsensusEngineId × List Nat))
    (s : State α) : Option α :=
  s.author

/-- The pallet's `Call` enum generated by `decl_module!`: its only
dispatchable is `set_author(author)`. -/
inductive Call (α : Type) where
  | set_author (author : α) : Call α
deriving DecidableEq, Repr

/-- `InherentError`: its single variant `Other(RuntimeString)`. -/
inductive InherentError : Type where
  | Other (msg : String) : InherentError
deriving DecidableEq, Repr

/-- `IsFatalError::is_fatal_error` for `InherentError`: every variant is
fatal. -/
def InherentError.is_fatal_error : InherentError → Bool
  | InherentError.Other _ => true

/-- The message of the error returned by `is_inherent_required`. -/
def authorInherentRequiredMsg : String := "AuthorInherentRequired"

/-- The message of the error returned by a failing `check_inherent`. -/
def cannotBeAuthorMsg : String := "Cannot Be Author"

/-- The `expect` message in `create_inherent`, with which the runtime
panics when the inherent payload is present but undecodable. -/
def expectMsg : String := "Gets and decodes authorship inherent data"

/-- Model of the `sp_inherents::InherentData` bag: an association list from
8-byte inherent identifiers to raw (SCALE-encoded) byte payloads. -/
structure InherentData where
  entries : List (InherentIdentifier × List Nat)
deriving DecidableEq, Repr

/-- Raw lookup in the inherent-data bag: the payload stored under `id`, if
any. -/
def InherentData.get_raw (d : InherentData) (id : InherentIdentifier) :
    Option (List Nat) :=
  (d.entries.find? (fun p => p.fst == id)).map (fun p => p.snd)

/-- Model of `InherentData::get_data::<T>`: `Ok(None)` when the identifier
is absent, `Ok(Some(t))` when its payload decodes, `Err(..)` when the
payload is present but fails to decode. -/
def get_data {α : Type} (decode : List Nat → Option α) (d : InherentData)
    (id : InherentIdentifier) : Except Unit (Option α) :=
  match InherentData.get_raw d id with
  | Option.none => Except.ok Option.none
  | some bytes =>
    match decode bytes with
    | some a => Except.ok (some a)
    | Option.none => Except.error ()

/-- `ProvideInherent::is_inherent_required`: unconditionally
`Ok(Some(InherentError::Other("AuthorInherentRequired")))`. -/
def is_inherent_required (d : InherentData) :
    Except InherentError (Option InherentError) :=
  Except.ok (some (InherentError.Other authorInherentRequiredMsg))

/-- The outcome of `create_inherent`: either the runtime panicked (the
`expect` on a failed decode) or it returned an `Option<Call>`. -/
inductive CreateInherentOutcome (α : Type) where
  | panicked (msg : String) : CreateInherentOutcome α
  | produced (call : Option (Call α)) : CreateInherentOutcome α
deriving DecidableEq, Repr

/-- `ProvideInherent::create_inherent`:
`data.get_data::<AuthorId>(&INHERENT_IDENTIFIER)`, then
`.expect("Gets and decodes authorship inherent data")` (panics on a decode
error), then `?` (returns `None` when the payload is absent), and finally
`Some(Call::set_author(author))`. -/
def create_inherent {α : Type} (cfg : Config α) (d : InherentData) :
    CreateInherentOutcome α :=
  match get_data cfg.decode d INHERENT_IDENTIFIER with
  | Except.error _ => CreateInherentOutcome.panicked expectMsg
  | Except.ok Option.none => CreateInherentOutcome.produced Option.none
  | Except.ok (some author) =>
    CreateInherentOutcome.produced (some (Call.set_author author))

/-- `ProvideInherent::check_inherent`: for `Call::set_author(claimed_author)`,
`ensure!(PreliminaryCanAuthor::can_author(&claimed_author), Other("Cannot Be Author"))`;
any other call passes (the pallet only checks its own inherent). -/
def check_inherent {α : Type} (cfg : Config α) (call : Call α)
    (d : InherentData) : Except InherentError Unit :=
  match call with
  | Call.set_author claimed_author =>
    if cfg.preliminaryCanAuthor claimed_author then Except.ok ()
    else Except.error (InherentError.Other cannotBeAuthorMsg)

/-- `ProvideInherent::is_inherent`: `matches!(call, Call::set_author(_))`. -/
def is_inherent {α : Type} : Call α → Bool
  | Call.set_author _ => true

/-- A sequence of `set_author` dispatches within one round (between two
`on_initialize` resets), applied left to right. -/
def run_claims {α : Type} (cfg : Config α) :
    List (Origin × α) → State α → State α
  | [], s => s
  | p :: rest, s =>
    run_claims cfg rest (apply_set_author cfg p.fst p.snd s).fst

/-- A concrete configuration over `Nat` authors that admits everyone;
`encode`/`decode` via a singleton byte list. -/
def natCfg : Config Nat where
  fullCanAuthor := fun _ => true
  preliminaryCanAuthor := fun _ => true
  encode := fun n => [n]
  decode := fun l =>
    match l with
    | [n] => some n
    | _ => Option.none

/-- A concrete configuration over `Nat` authors whose admission policies
reject everyone. -/
def rejectCfg : Config Nat where
  fullCanAuthor := fun _ => false
  preliminaryCanAuthor := fun _ => false
  encode := fun n => [n]
  decode := fun l =>
    match l with
    | [n] => some n
    | _ => Option.none

/-- A dispatch of `set_author` against a state whose slot is already filled
leaves the state unchanged (used for the write-once invariant). -/
theorem apply_set_author_of_isSome {α : Type} (cfg : Config α) (o : Origin)
    (a : α) (s : State α) (h : (s.author).isSome = true) :
    (apply_set_author cfg o a s).fst = s := by
  unfold apply_set_author
  cases o with
  | none => simp [set_author, ensure_none, h]
  | signed w => simp [set_author, ensure_none]
  | root => simp [set_author, ensure_none]

/-- C1: for every author `a` accepted by the final-admission policy, a
`set_author` dispatched with the none origin against an empty slot
succeeds, sets the slot to `some a`, and appends exactly one consensus
digest item tagged `ENGINE_ID` (the 4 ASCII bytes of `"auth"`) carrying
the encoded author, followed by exactly one `note_author` notification —
the digest deposit strictly before the notification; moreover every
failing dispatch leaves the state unchanged, so these side effects occur
only on the success path. -/
theorem set_author_success {α : Type} (cfg : Config α) (a : α) (s : State α)
    (hempty : s.author = Option.none) (hcan : cfg.fullCanAuthor a = true) :
    apply_set_author cfg Origin.none a s =
      ({ author := some a
         events := s.events ++
           [Event.consensus ENGINE_ID (cfg.encode a), Event.noteAuthor a] },
       Option.none) ∧
    ENGINE_ID = [97, 117, 116, 104] ∧
    (∀ (o : Origin) (b : α) (t : State α) (e : DispatchError),
      (apply_set_author cfg o b t).snd = some e →
      (apply_set_author cfg o b t).fst = t) := by
  refine ⟨?_, rfl, ?_⟩
  · simp [apply_set_author, set_author, ensure_none, hempty, hcan]
  · intro o b t e h
    unfold apply_set_author at h ⊢
    cases hs : set_author cfg o b t with
    | ok s2 => rw [hs] at h; simp at h
    | error e2 => rfl

/-- Witness for C1 at a concrete input. -/
theorem set_author_success_witness :
    apply_set_author natCfg Origin.none 1 { author := Option.none, events := [] } =
      ({ author := some 1
         events := [Event.consensus ENGINE_ID (natCfg.encode 1),
                    Event.noteAuthor 1] },
       Option.none) :=
  (set_author_success natCfg 1 { author := Option.none, events := [] } rfl rfl).1

/-- C2: if the slot is already `some b`, a second `set_author` from the
none origin fails with `AuthorAlreadySet` and the state — slot and event
trace alike — is unchanged. -/
theorem set_author_already_set {α : Type} (cfg : Config α) (a b : α)
    (s : State α) (h : s.author = some b) :
    apply_set_author cfg Origin.none a s =
      (s, some DispatchError.authorAlreadySet) := by
  simp [apply_set_author, set_author, ensure_none, h]

/-- Witness for C2 at a concrete input. -/
theorem set_author_already_set_witness :
    apply_set_author natCfg Origin.none 2 { author := some 1, events := [] } =
      ({ author := some 1, events := [] },
       some DispatchError.authorAlreadySet) :=
  set_author_already_set natCfg 2 1 { author := some 1, events := [] } rfl

/-- C3: `set_author` from any origin other than none fails with the
origin error (`BadOrigin` from `ensure_none`, the spec's
`NotPermittedOrigin`) regardless of the admission policy and of the slot
state, and leaves the state unchanged. -/
theorem set_author_bad_origin {α : Type} (cfg : Config α) (a : α)
    (s : State α) (o : Origin) (h : o ≠ Origin.none) :
    apply_set_author cfg o a s = (s, some DispatchError.badOrigin) := by
  cases o with
  | none => exact absurd rfl h
  | signed w => simp [apply_set_author, set_author, ensure_none]
  | root => simp [apply_set_author, set_author, ensure_none]

/-- Witness for C3 at a concrete input: a signed origin, with a policy
that would admit the author and an empty slot. -/
theorem set_author_bad_origin_witness :
    apply_set_author natCfg (Origin.signed 1) 1
        { author := Option.none, events := [] } =
      ({ author := Option.none, events := [] },
       some DispatchError.badOrigin) :=
  set_author_bad_origin natCfg 1 { author := Option.none, events := [] }
    (Origin.signed 1) (by decide)

/-- C4: if the final-admission policy rejects `a`, a `set_author` from the
none origin against an empty slot fails with `CannotBeAuthor` and the
state — slot and event trace alike — is unchanged. -/
theorem set_author_cannot_be_author {α : Type} (cfg : Config α) (a : α)
    (s : State α) (hempty : s.author = Option.none)
    (hrej : cfg.fullCanAuthor a = false) :
    apply_set_author cfg Origin.none a s =
      (s, some DispatchError.cannotBeAuthor) := by
  simp [apply_set_author, set_author, ensure_none, hempty, hrej]

/-- Witness for C4 at a concrete input. -/
theorem set_author_cannot_be_author_witness :
    apply_set_author rejectCfg Origin.none 1
        { author := Option.none, events := [] } =
      ({ author := Option.none, events := [] },
       some DispatchError.cannotBeAuthor) :=
  set_author_cannot_be_author rejectCfg 1
    { author := Option.none, events := [] } rfl rfl

/-- C5: the `on_initialize` reset unconditionally clears the slot from
every prior state, touches nothing else (event trace unchanged, weight
`0`), is total (no failure mode), is idempotent, and `find_author`
returns none right after it. -/
theorem reset_clears_slot {α : Type} (s : State α)
    (ds : List (ConsensusEngineId × List Nat)) :
    ( on_initialize s).fst = { s with author := Option.none } ∧
    ( on_initialize s).snd = 0 ∧
    on_initialize ( on_initialize s).fst = on_initialize s ∧
    find_author ds ( on_initialize s).fst = Option.none :=
  ⟨rfl, rfl, rfl, rfl⟩

/-- C6: within one round the slot only ever transitions from none to
`some a` under a `set_author` dispatch — a single step either leaves the
slot exactly as it was, or fills an empty slot — and once the slot holds
`some b`, any further sequence of `set_author` dispatches leaves it at
`some b`; `set_author` is the only in-round operation of the module that
takes and returns a state, so the slot is write-once per round. -/
theorem slot_write_once {α : Type} (cfg : Config α) (o : Origin) (a : α)
    (s : State α) (ops : List (Origin × α)) :
    ((apply_set_author cfg o a s).fst.author = s.author ∨
      (s.author = Option.none ∧
        (apply_set_author cfg o a s).fst.author = some a)) ∧
    (∀ b : α, s.author = some b → (run_claims cfg ops s).author = some b) := by
  constructor
  · unfold apply_set_author
    cases o with
    | signed w => left; simp [set_author, ensure_none]
    | root => left; simp [set_author, ensure_none]
    | none =>
      cases hsa : s.author with
      | some b => left; simp [set_author, ensure_none, hsa]
      | none =>
        cases hc : cfg.fullCanAuthor a with
        | true =>
          right
          exact ⟨rfl, by simp [set_author, ensure_none, hsa, hc]⟩
        | false => left; simp [set_author, ensure_none, hsa, hc]
  · intro b hb
    induction ops generalizing s with
    | nil => simpa [run_claims] using hb
    | cons p rest ih =>
      have h1 : (apply_set_author cfg p.fst p.snd s).fst = s :=
        apply_set_author_of_isSome cfg p.fst p.snd s (by simp [hb])
      rw [run_claims, h1]
      exact ih s hb

/-- Witness for C6 at a concrete input: a filled slot survives a further
claim attempt. -/
theorem slot_write_once_witness :
    (run_claims natCfg [(Origin.none, 7)]
        { author := some 3, events := [] }).author = some 3 :=
  (slot_write_once natCfg Origin.none 7 { author := some 3, events := [] }
      [(Origin.none, 7)]).2 3 rfl

/-- C7: `find_author` is insensitive to its digest argument — any two
digest lists give the same answer — and that answer is exactly the
slot's current value. -/
theorem find_author_ignores_digests {α : Type} (s : State α)
    (d1 d2 : List (ConsensusEngineId × List Nat)) :
    find_author d1 s = find_author d2 s ∧ find_author d1 s = s.author :=
  ⟨rfl, rfl⟩

/-- C8: `is_inherent_required` returns, for every inherent-data bag,
`Ok(Some(e))` with `e` the fatal `AuthorInherentRequired` error — never
`Ok(None)` and never `Err`. -/
theorem is_inherent_required_always_fatal (d : InherentData) :
    is_inherent_required d =
      Except.ok (some (InherentError.Other authorInherentRequiredMsg)) ∧
    InherentError.is_fatal_error
      (InherentError.Other authorInherentRequiredMsg) = true ∧
    authorInherentRequiredMsg = "AuthorInherentRequired" :=
  ⟨rfl, rfl, rfl⟩

/-- C9: `create_inherent` produces `Some(set_author(a))` exactly when the
bag holds a payload under the 8-byte identifier `"author__"` that decodes
to `a`; it panics (the `expect`) when the payload is present but
undecodable; and when the payload is absent it produces no call, in which
case `is_inherent_required`'s unconditional fatal error aborts round
construction. -/
theorem create_inherent_spec {α : Type} (cfg : Config α) (d : InherentData) :
    (∀ (bytes : List Nat) (a : α),
      InherentData.get_raw d INHERENT_IDENTIFIER = some bytes →
      cfg.decode bytes = some a →
      create_inherent cfg d =
        CreateInherentOutcome.produced (some (Call.set_author a))) ∧
    (∀ bytes : List Nat,
      InherentData.get_raw d INHERENT_IDENTIFIER = some bytes →
      cfg.decode bytes = Option.none →
      create_inherent cfg d = CreateInherentOutcome.panicked expectMsg) ∧
    (InherentData.get_raw d INHERENT_IDENTIFIER = Option.none →
      create_inherent cfg d = CreateInherentOutcome.produced Option.none ∧
      is_inherent_required d =
        Except.ok (some (InherentError.Other authorInherentRequiredMsg)) ∧
      InherentError.is_fatal_error
        (InherentError.Other authorInherentRequiredMsg) = true) ∧
    INHERENT_IDENTIFIER = [97, 117, 116, 104, 111, 114, 95, 95] := by
  refine ⟨?_, ?_, ?_, rfl⟩
  · intro bytes a h1 h2
    simp [create_inherent, get_data, h1, h2]
  · intro bytes h1 h2
    simp [create_inherent, get_data, h1, h2]
  · intro h1
    exact ⟨by simp [create_inherent, get_data, h1], rfl, rfl⟩

/-- Witness for C9 at a concrete input: a bag holding the encoding of
author `7` under the fixed identifier. -/
theorem create_inherent_spec_witness :
    create_inherent natCfg { entries := [(INHERENT_IDENTIFIER, [7])] } =
      CreateInherentOutcome.produced (some (Call.set_author 7)) :=
  (create_inherent_spec natCfg
      { entries := [(INHERENT_IDENTIFIER, [7])] }).1 [7] 7 (by decide) rfl

/-- C10: `check_inherent` passes exactly when every `set_author a` shape
of the call has `a` admitted by the preliminary policy, and whenever it
fails the error is the fatal `Cannot Be Author` inherent error and the
call is some `set_author a` with `a` rejected by the preliminary
policy. -/
theorem check_inherent_spec {α : Type} (cfg : Config α) (c : Call α)
    (d : InherentData) :
    (check_inherent cfg c d = Except.ok () ↔
      ∀ a : α, c = Call.set_author a → cfg.preliminaryCanAuthor a = true) ∧
    (∀ e : InherentError, check_inherent cfg c d = Except.error e →
      e = InherentError.Other cannotBeAuthorMsg ∧
      InherentError.is_fatal_error e = true ∧
      ∃ a : α, c = Call.set_author a ∧ cfg.preliminaryCanAuthor a = false) := by
  cases c with
  | set_author a =>
    cases hp : cfg.preliminaryCanAuthor a with
    | true =>
      constructor
      · constructor
        · intro _ b hb
          injection hb with hab
          exact hab ▸ hp
        · intro _
          simp [check_inherent, hp]
      · intro e he
        rw [check_inherent] at he
        rw [hp] at he
        exact absurd he (by simp)
    | false =>
      constructor
      · constructor
        · intro h
          rw [check_inherent, hp] at h
          exact absurd h (by simp)
        · intro h
          exact absurd (h a rfl) (by simp [hp])
      · intro e he
        simp only [check_inherent, hp, Bool.false_eq_true, if_false,
          Except.error.injEq] at he
        exact ⟨he.symm, he ▸ rfl, a, rfl, hp⟩

/-- Witness for C10 at a concrete input: a rejecting preliminary policy
yields the fatal error for `set_author 2`. -/
theorem check_inherent_spec_witness :
    InherentError.is_fatal_error (InherentError.Other cannotBeAuthorMsg) = true :=
  ((check_inherent_spec rejectCfg (Call.set_author 2) { entries := [] }).2
    (InherentError.Other cannotBeAuthorMsg) rfl).2.1

end AuthorInherent
